import Mathlib

/-!
Shallow embedding of the OCAP2 replay-saver extension
(src/OcapReplaySaver2/OcapReplaySaver2.cpp) for verifying the
specification's claims about the command-processing pipeline.

Modelling conventions (each noted again at the definition it concerns):
* The global nlohmann `json j` session document is modelled as a structured
  record `Doc` whose fields mirror the keys the handlers write.  Fields that
  may be absent, explicitly `null`, or an array (`entities`, `Markers`,
  `events`) are modelled by the three-state type `JF`, because nlohmann
  `operator[]` materializes an absent key as a `null` member, which is an
  observable document change.
* Machine integers parsed by `stoi` become `Int` (the inputs of interest are
  tiny, far from any overflow, and the handlers do no arithmetic on them).
* Floating point values parsed by `stod` (capture delay, marker direction,
  alpha is `stoi`) are kept as their source text: no claim compares float
  values, only whether parsing succeeds.  `stod?` is a conservative model of
  `std::stod` acceptance (optional sign followed by a digit); every concrete
  input used below is a plain numeral, inside its accepted set.
* `JSON_PARSE_FROM_ARG` (escapeArma3ToJson + json::parse) produces opaque
  embedded values; they are kept as the raw argument string.  Parse failure
  of these embedded literals is not modelled; no claim depends on it.
* easylogging output, checkUTF8Bytes (advisory only) and the actual
  libcurl/zlib I/O have no effect on the session state; file-system and
  compression outcomes are supplied by a `SaveFS` oracle, and the upload
  calls the code would issue are computed as a pure `List UploadCall`.
-/

/-- Errors thrown by handlers (all are caught at the dispatch boundary in
`perform_command`; partial mutations made before a throw persist, because
the document is a global). -/
inductive Err
  | badArity      -- COMMAND_CHECK_INPUT_PARAMETERS* failed
  | notWriting    -- COMMAND_CHECK_WRITING_STATE failed
  | noSuchMarker  -- marker name lookup failed
  | parseErr      -- stoi / stod rejected an argument
  | ioErr         -- cannot open the staging temp file
  | typeErr       -- nlohmann get<string> on a non-string (the tags line)
  | lenErr        -- negative entity id: huge vector insert throws
deriving DecidableEq, Repr

/-- Three-state json member: absent key, explicit null, or a real value.
nlohmann `operator[]` on an object inserts `null` for an absent key, so the
absent/null distinction is observable (it changes the serialized document). -/
inductive JF (α : Type)
  | absent
  | jnull
  | arr (xs : α)
deriving DecidableEq, Repr

/-- One entry of a marker's position history: the array
`[frame, pos, dir(,alpha)]` built by commandMarkerCreate/commandMarkerMove.
`dir = none` encodes the float literal 0 used when marker-move has no
direction argument; `pos` is the opaque parsed position literal. -/
structure PosRec where
  frame : Int
  pos : String
  dir : Option String
  alpha : Option Int
deriving DecidableEq, Repr

/-- A marker record as built by commandMarkerCreate.  Field order mirrors the
positional json array: 0 mtype, 1 mtext, 2 startFrame, 3 endFrame,
4 placer, 5 color, 6 side, 7 history, 8 msize, 9 markerId, 10 shape (opt.),
11 brush (opt.).  `prepareMarkerFrames`'s `erase(cbegin()+9)` is modelled as
clearing `markerId` (markers produced by commandMarkerCreate always carry an
id; only a save aborted after the prepare pass could leave a stripped marker
in a live document, a corner no claim reaches). -/
structure Marker where
  mtype : String
  mtext : String
  startFrame : Int
  endFrame : Int
  placer : Int
  color : String
  side : Int
  history : List PosRec
  msize : String
  markerId : Option String
  shape : Option String
  brush : Option String
deriving DecidableEq, Repr

/-- Identity fields of an entity (the json object built by
commandNewUnit / commandNewVeh, minus the two growing arrays). -/
inductive EMeta
  | unit (startFrameNum : Int) (id : Int) (name : String) (group : String)
      (side : String) (isPlayer : Int)
  | veh (startFrameNum : Int) (id : Int) (cls : String) (name : String)
deriving DecidableEq, Repr

/-- A position sample appended by commandUpdateUnit:
`[pos, a2, a3, a4, n5, i6 (, extra)]`. -/
structure UnitPos where
  pos : String
  a2 : Int
  a3 : Int
  a4 : Int
  n5 : String
  i6 : Int
  extra : Option String
deriving DecidableEq, Repr

/-- A position sample appended by commandUpdateVeh: `[pos, a2, a3, crew]`. -/
structure VehPos where
  pos : String
  a2 : Int
  a3 : Int
  crew : String
deriving DecidableEq, Repr

/-- The positions array is heterogeneous json; either update handler can pust
onto any entity, so an element records which handler built it. -/
inductive EPos
  | u (p : UnitPos)
  | v (p : VehPos)
deriving DecidableEq, Repr

/-- A fired record `[frame, pos]` appended by commandFired. -/
structure FiredRec where
  frame : Int
  pos : String
deriving DecidableEq, Repr

/-- One element of the entities array. -/
structure Entity where
  meta : EMeta
  positions : List EPos
  framesFired : List FiredRec
deriving DecidableEq, Repr

/-- The session document `json j`.  Entities array elements are `Option`
because out-of-range `operator[]` access pads the array with json nulls.
An event row keeps the raw argument strings (each parsed opaquely). -/
structure Doc where
  worldName : Option String
  missionName : Option String
  missionAuthor : Option String
  captureDelay : Option String
  endFrame : Option Int
  tags : Option String
  entities : JF (List (Option Entity))
  markers : JF (List Marker)
  events : JF (List (List String))
deriving DecidableEq, Repr

/-- The cleared document (`j.clear()`; the top-level null/empty-object
distinction is not tracked: no handler or claim observes it). -/
def Doc.empty : Doc :=
  ⟨none, none, none, none, none, none, JF.absent, JF.absent, JF.absent⟩

/-- The configuration struct (anonymous struct `config` in the source). -/
structure Config where
  dbInsertUrl : String
  addFileUrl : String
  newUrl : String
  newServerGameType : String
  newUrlRequestSecret : String
  newMode : Int
  httpRequestTimeout : Int
  traceLog : Int
deriving DecidableEq, Repr

/-- The process state a command handler can touch: the document `j`, the
`is_writing` flag, and the config struct. -/
structure St where
  j : Doc
  isWriting : Bool
  cfg : Config
deriving DecidableEq, Repr

/-- filterSqfStr: strips a leading quote and a trailing quote, collapses a
doubled quote into a single one.  The Bool tracks the `begin` flag. -/
def filterSqfChars : Bool → List Char → List Char
  | _, [] => []
  | b, [c] => if (b && c == '"') || c == '"' then [] else [c]
  | b, c :: c2 :: rest =>
    if b && c == '"' then filterSqfChars false (c2 :: rest)
    else if c == '"' && c2 == '"' then '"' :: filterSqfChars false rest
    else c :: filterSqfChars false (c2 :: rest)

/-- filterSqfString from the source (JSON_STR_FROM_ARG applies it). -/
def filterSqfString (s : String) : String :=
  ⟨filterSqfChars true s.data⟩

/-- removeHash: deletes every hash character (used on the marker color). -/
def removeHash (s : String) : String :=
  ⟨s.data.filter (fun c => c ≠ '#')⟩

/-- Value of a block of leading decimal digits; none if there is none.
Like std::stoi, trailing non-digit characters are ignored. -/
def stoiDigits (cs : List Char) : Option Int :=
  let ds := cs.takeWhile Char.isDigit
  if ds.isEmpty then none
  else some (Int.ofNat (ds.foldl (fun a c => a * 10 + (c.toNat - '0'.toNat)) 0))

/-- Model of std::stoi on the argument strings: optional sign followed by
digits; throws (none) when no digit follows. -/
def stoiQ (s : String) : Option Int :=
  match s.data with
  | '-' :: rest => (stoiDigits rest).map (fun n => -n)
  | '+' :: rest => stoiDigits rest
  | cs => stoiDigits cs

/-- Conservative model of std::stod acceptance: optional sign followed by a
digit.  The parsed value is kept as the source text (see file header). -/
def stodQ (s : String) : Option String :=
  match s.data with
  | '-' :: rest => if rest.head?.any Char.isDigit then some s else none
  | '+' :: rest => if rest.head?.any Char.isDigit then some s else none
  | cs => if cs.head?.any Char.isDigit then some s else none

/-- Index of the LAST element satisfying p (the source searches markers and
history entries with find_if over rbegin..rend). -/
def findRevIdx (p : α → Bool) : List α → Option Nat
  | [] => none
  | x :: xs =>
    match findRevIdx p xs with
    | some i => some (i + 1)
    | none => if p x then some 0 else none

/-- entities as a list (absent and null read as empty before conversion). -/
def entsOf : JF (List (Option Entity)) → List (Option Entity)
  | JF.arr xs => xs
  | _ => []

/-- nlohmann non-const array operator[]: out-of-range access extends the
array with nulls up to the index. -/
def padEnts (xs : List (Option Entity)) (id : Nat) : List (Option Entity) :=
  if xs.length ≤ id then xs ++ List.replicate (id + 1 - xs.length) none else xs

/-- Markers member after a bare operator[] access: an absent key is
materialized as an explicit null member; arrays are untouched. -/
def markersMaterialized : JF (List Marker) → JF (List Marker)
  | JF.absent => JF.jnull
  | JF.jnull => JF.jnull
  | JF.arr xs => JF.arr xs

/-- Markers member read as a list (null iterates as an empty range). -/
def markersList : JF (List Marker) → List Marker
  | JF.arr xs => xs
  | _ => []

/-- events member read as a list (push_back converts null to an array). -/
def eventsOf : JF (List (List String)) → List (List String)
  | JF.arr xs => xs
  | _ => []

/-- Placeholder used with List.getD at indices that findRevIdx proved in
range (the C++ dereferences a valid reverse iterator there). -/
def mDefault : Marker :=
  ⟨"", "", 0, 0, 0, "", 0, [], "", none, none, none⟩

/-- commandClear: COMMAND_CHECK_WRITING_STATE, then j.clear() and
is_writing = false.  Note the handler FAILS while idle. -/
def commandClear (_args : List String) (s : St) : St × Option Err :=
  if s.isWriting then (⟨Doc.empty, false, s.cfg⟩, none)
  else (s, some Err.notWriting)

/-- commandLog: writes to the side log only; never touches the document. -/
def commandLog (_args : List String) (s : St) : St × Option Err :=
  (s, none)

/-- commandStart: arity 4; implicit clear when already writing; logger
reconfiguration (no session state); sets is_writing then the four metadata
fields (the stod for captureDelay runs after the first three stores). -/
def commandStart (args : List String) (s : St) : St × Option Err :=
  if args.length ≠ 4 then (s, some Err.badArity)
  else
    let s0 := if s.isWriting then (commandClear args s).1 else s
    let s1 : St := { s0 with isWriting := true }
    let d1 := { s1.j with
      worldName := some (filterSqfString (args.getD 0 "")),
      missionName := some (filterSqfString (args.getD 1 "")),
      missionAuthor := some (filterSqfString (args.getD 2 "")) }
    match stodQ (args.getD 3 "") with
    | none => ({ s1 with j := d1 }, some Err.parseErr)
    | some d => ({ s1 with j := { d1 with captureDelay := some d } }, none)

/-- commandNewUnit: arity 6, writing state, then append a unit entity.
All argument conversions run before the push_back, so a stoi throw leaves
the document untouched. -/
def commandNewUnit (args : List String) (s : St) : St × Option Err :=
  if args.length ≠ 6 then (s, some Err.badArity)
  else if !s.isWriting then (s, some Err.notWriting)
  else
    match stoiQ (args.getD 0 ""), stoiQ (args.getD 1 ""), stoiQ (args.getD 5 "") with
    | some sf, some id, some ip =>
      let e : Entity := ⟨EMeta.unit sf id (filterSqfString (args.getD 2 ""))
          (filterSqfString (args.getD 3 "")) (filterSqfString (args.getD 4 "")) ip, [], []⟩
      ({ s with j := { s.j with entities := JF.arr (entsOf s.j.entities ++ [some e]) } }, none)
    | _, _, _ => (s, some Err.parseErr)

/-- commandNewVeh: arity 4, writing state, then append a vehicle entity
(args 2 = class, 3 = name). -/
def commandNewVeh (args : List String) (s : St) : St × Option Err :=
  if args.length ≠ 4 then (s, some Err.badArity)
  else if !s.isWriting then (s, some Err.notWriting)
  else
    match stoiQ (args.getD 0 ""), stoiQ (args.getD 1 "") with
    | some sf, some id =>
      let e : Entity := ⟨EMeta.veh sf id (filterSqfString (args.getD 2 ""))
          (filterSqfString (args.getD 3 "")), [], []⟩
      ({ s with j := { s.j with entities := JF.arr (entsOf s.j.entities ++ [some e]) } }, none)
    | _, _ => (s, some Err.parseErr)

/-- commandUpdateUnit: arity 7 or 8, writing state.  The lookup
j["entities"][id] itself pads the array with nulls when id is out of
range; a null element is the logged soft error (NO exception, but the
padding persists).  A negative id turns into a huge size_type and the
vector insert throws. -/
def commandUpdateUnit (args : List String) (s : St) : St × Option Err :=
  if args.length ≠ 7 ∧ args.length ≠ 8 then (s, some Err.badArity)
  else if !s.isWriting then (s, some Err.notWriting)
  else
    match stoiQ (args.getD 0 "") with
    | none => (s, some Err.parseErr)
    | some id =>
      let xs := entsOf s.j.entities
      if id < 0 then
        ({ s with j := { s.j with entities := JF.arr xs } }, some Err.lenErr)
      else
        let n := id.toNat
        let xs2 := padEnts xs n
        match xs2.getD n none with
        | none =>
          ({ s with j := { s.j with entities := JF.arr xs2 } }, none)
        | some e =>
          match stoiQ (args.getD 2 ""), stoiQ (args.getD 3 ""), stoiQ (args.getD 4 ""),
              stoiQ (args.getD 6 "") with
          | some a2, some a3, some a4, some i6 =>
            let p : UnitPos := ⟨args.getD 1 "", a2, a3, a4,
                filterSqfString (args.getD 5 ""), i6,
                if args.length > 7 then some (filterSqfString (args.getD 7 "")) else none⟩
            let e2 := { e with positions := e.positions ++ [EPos.u p] }
            ({ s with j := { s.j with entities := JF.arr (xs2.set n (some e2)) } }, none)
          | _, _, _, _ =>
            ({ s with j := { s.j with entities := JF.arr xs2 } }, some Err.parseErr)

/-- commandUpdateVeh: arity 5, writing state; same lookup/padding policy as
commandUpdateUnit. -/
def commandUpdateVeh (args : List String) (s : St) : St × Option Err :=
  if args.length ≠ 5 then (s, some Err.badArity)
  else if !s.isWriting then (s, some Err.notWriting)
  else
    match stoiQ (args.getD 0 "") with
    | none => (s, some Err.parseErr)
    | some id =>
      let xs := entsOf s.j.entities
      if id < 0 then
        ({ s with j := { s.j with entities := JF.arr xs } }, some Err.lenErr)
      else
        let n := id.toNat
        let xs2 := padEnts xs n
        match xs2.getD n none with
        | none =>
          ({ s with j := { s.j with entities := JF.arr xs2 } }, none)
        | some e =>
          match stoiQ (args.getD 2 ""), stoiQ (args.getD 3 "") with
          | some a2, some a3 =>
            let p : VehPos := ⟨args.getD 1 "", a2, a3, args.getD 4 ""⟩
            let e2 := { e with positions := e.positions ++ [EPos.v p] }
            ({ s with j := { s.j with entities := JF.arr (xs2.set n (some e2)) } }, none)
          | _, _ =>
            ({ s with j := { s.j with entities := JF.arr xs2 } }, some Err.parseErr)

/-- commandFired: arity 3, writing state; same lookup/padding policy as the
update handlers; appends [frame, pos] to framesFired. -/
def commandFired (args : List String) (s : St) : St × Option Err :=
  if args.length ≠ 3 then (s, some Err.badArity)
  else if !s.isWriting then (s, some Err.notWriting)
  else
    match stoiQ (args.getD 0 "") with
    | none => (s, some Err.parseErr)
    | some id =>
      let xs := entsOf s.j.entities
      if id < 0 then
        ({ s with j := { s.j with entities := JF.arr xs } }, some Err.lenErr)
      else
        let n := id.toNat
        let xs2 := padEnts xs n
        match xs2.getD n none with
        | none =>
          ({ s with j := { s.j with entities := JF.arr xs2 } }, none)
        | some e =>
          match stoiQ (args.getD 1 "") with
          | some fr =>
            let e2 := { e with framesFired := e.framesFired ++ [⟨fr, args.getD 2 ""⟩] }
            ({ s with j := { s.j with entities := JF.arr (xs2.set n (some e2)) } }, none)
          | none =>
            ({ s with j := { s.j with entities := JF.arr xs2 } }, some Err.parseErr)

/-- commandEvent: writing state first, then at least 3 arguments; each
argument is an opaque embedded literal, the whole tuple is appended. -/
def commandEvent (args : List String) (s : St) : St × Option Err :=
  if !s.isWriting then (s, some Err.notWriting)
  else if args.length < 3 then (s, some Err.badArity)
  else ({ s with j := { s.j with events := JF.arr (eventsOf s.j.events ++ [args]) } }, none)

/-- commandMarkerCreate: arity 11..14, writing state; a null/absent Markers
member is replaced by an empty array BEFORE the argument conversions, so a
later stoi throw leaves that materialized empty array behind.  Color "any"
normalizes to 000000, a hash prefix is stripped. -/
def commandMarkerCreate (args : List String) (s : St) : St × Option Err :=
  if args.length ≠ 11 ∧ args.length ≠ 12 ∧ args.length ≠ 13 ∧ args.length ≠ 14 then
    (s, some Err.badArity)
  else if !s.isWriting then (s, some Err.notWriting)
  else
    let ms := markersList s.j.markers
    let s1 : St := { s with j := { s.j with markers := JF.arr ms } }
    let clr0 := removeHash (filterSqfString (args.getD 7 ""))
    let clr := if clr0 = "any" then "000000" else clr0
    match stoiQ (args.getD 4 ""), stoiQ (args.getD 5 ""), stoiQ (args.getD 6 ""),
        stoiQ (args.getD 9 "") with
    | some frameNo, some delFrame, some placer, some side =>
      match stodQ (args.getD 1 "") with
      | none => (s1, some Err.parseErr)
      | some dir =>
        match (if args.length > 12 then (stoiQ (args.getD 12 "")).map some else some none) with
        | none => (s1, some Err.parseErr)
        | some alpha =>
          let m : Marker := {
            mtype := filterSqfString (args.getD 2 ""),
            mtext := filterSqfString (args.getD 3 ""),
            startFrame := frameNo,
            endFrame := delFrame,
            placer := placer,
            color := clr,
            side := side,
            history := [⟨frameNo, args.getD 10 "", some dir, alpha⟩],
            msize := args.getD 8 "",
            markerId := some (filterSqfString (args.getD 0 "")),
            shape := if args.length > 11 then some (filterSqfString (args.getD 11 "")) else none,
            brush := if args.length > 13 then some (filterSqfString (args.getD 13 "")) else none }
          ({ s1 with j := { s1.j with markers := JF.arr (ms ++ [m]) } }, none)
    | _, _, _, _ => (s1, some Err.parseErr)

/-- commandMarkerDelete: arity 2, writing state; newest-first name lookup
over index 9 (the bare j["Markers"] access materializes an absent key as a
null member even on failure); on a hit, stores the closing frame at tuple
index 3. -/
def commandMarkerDelete (args : List String) (s : St) : St × Option Err :=
  if args.length ≠ 2 then (s, some Err.badArity)
  else if !s.isWriting then (s, some Err.notWriting)
  else
    let mname := filterSqfString (args.getD 0 "")
    let mk := markersMaterialized s.j.markers
    let ms := markersList s.j.markers
    let s1 : St := { s with j := { s.j with markers := mk } }
    match findRevIdx (fun m => m.markerId = some mname) ms with
    | none => (s1, some Err.noSuchMarker)
    | some i =>
      match stoiQ (args.getD 1 "") with
      | none => (s1, some Err.parseErr)
      | some f =>
        let m := ms.getD i mDefault
        ({ s1 with j := { s1.j with markers := JF.arr (ms.set i { m with endFrame := f }) } },
          none)

/-- commandMarkerMove: writing state FIRST, then arity 3..5; default
direction 0 when absent; newest-first name lookup over index 9 (with the
same Markers materialization); then within the hit marker's history the
LAST record with the same frame is replaced in place, or a new record is
appended when none exists. -/
def commandMarkerMove (args : List String) (s : St) : St × Option Err :=
  if !s.isWriting then (s, some Err.notWriting)
  else if args.length ≠ 3 ∧ args.length ≠ 4 ∧ args.length ≠ 5 then (s, some Err.badArity)
  else
    match (if args.length < 4 then some none else (stodQ (args.getD 3 "")).map some) with
    | none => (s, some Err.parseErr)
    | some dir =>
      let mname := filterSqfString (args.getD 0 "")
      let mk := markersMaterialized s.j.markers
      let ms := markersList s.j.markers
      let s1 : St := { s with j := { s.j with markers := mk } }
      match findRevIdx (fun m => m.markerId = some mname) ms with
      | none => (s1, some Err.noSuchMarker)
      | some i =>
        match stoiQ (args.getD 1 "") with
        | none => (s1, some Err.parseErr)
        | some f =>
          match (if args.length > 4 then (stoiQ (args.getD 4 "")).map some else some none) with
          | none => (s1, some Err.parseErr)
          | some alpha =>
            let cr : PosRec := ⟨f, args.getD 2 "", dir, alpha⟩
            let m := ms.getD i mDefault
            let h2 :=
              match findRevIdx (fun e => e.frame = f) m.history with
              | none => m.history ++ [cr]
              | some k => m.history.set k cr
            ({ s1 with j := { s1.j with markers := JF.arr (ms.set i { m with history := h2 }) } },
              none)

/-- Save-time marker normalization: guarded no-op when Markers is null, not
an array, or empty (the guard's bare access materializes an absent key as
null); otherwise every still-open marker (end frame -1) is closed with the
session end frame and the internal marker id (tuple index 9) is erased. -/
def prepareMarkerFrames (frames : Int) (d : Doc) : Doc :=
  match d.markers with
  | JF.arr ms =>
    if ms.length < 1 then d
    else { d with markers := JF.arr (ms.map (fun m =>
        { m with
          endFrame := if m.endFrame = -1 then frames else m.endFrame,
          markerId := none })) }
  | _ => { d with markers := JF.jnull }

/-- Outcome oracle for the persist step: whether the staging file can be
opened, whether the gzip write succeeds, plus the random temp-file path and
the derived public filename (their actual text is irrelevant to every
claim). -/
structure SaveFS where
  fsOk : Bool
  gzOk : Bool
  tempName : String
  resultName : String
deriving DecidableEq, Repr

/-- The pair returned by saveCurrentReplayToTempFile, plus whether the
uncompressed staging file was deleted. -/
structure StagedFiles where
  first : String
  second : String
  uncompressedDeleted : Bool
deriving DecidableEq, Repr

/-- saveCurrentReplayToTempFile: throws when the staging file cannot be
opened; on gzip success deletes the uncompressed file and returns
(tempName, tempName.gz); on gzip failure keeps the uncompressed file and
returns an empty archive name. -/
def saveCurrentReplayToTempFile (o : SaveFS) : Except Err StagedFiles :=
  if !o.fsOk then Except.error Err.ioErr
  else if o.gzOk then Except.ok ⟨o.tempName, o.tempName ++ ".gz", true⟩
  else Except.ok ⟨o.tempName, "", false⟩

/-- The network calls made during a save. -/
inductive UploadCall
  | dbInsert (url world mission dur fname : String)
  | uploadFile (url file fname : String)
  | uploadNew (url world mission dur fname file gametype secret : String)
deriving DecidableEq, Repr

/-- File chosen by curlUploadNew:
bool archive = !pair_files.second.empty(); file = archive ? second : first. -/
def curlUploadNewFile (pairFiles : StagedFiles) : String :=
  if pairFiles.second ≠ "" then pairFiles.second else pairFiles.first

/-- curlActions: consolidated mode posts one multipart request with the
fallback file; legacy mode does a dbInsert call plus a file upload that is
ALWAYS handed tfile.first, the uncompressed staging path. -/
def curlActions (cfg : Config) (world mission dur fname : String) (tfile : StagedFiles) :
    List UploadCall :=
  if cfg.newMode ≠ 0 then
    [UploadCall.uploadNew cfg.newUrl world mission dur fname (curlUploadNewFile tfile)
      cfg.newServerGameType cfg.newUrlRequestSecret]
  else
    [UploadCall.dbInsert cfg.dbInsertUrl world mission dur fname,
      UploadCall.uploadFile cfg.addFileUrl tfile.first fname]

/-- commandSave: arity 5 or 6, writing state; refresh metadata and endFrame;
with a 6th (tags) argument the config line
config.newServerGameType = (json {JSON_STR_FROM_ARG(5)}).get<string>()
brace-initializes a one-element ARRAY and get<string> throws type_error in
the right-hand side, so config is never assigned and the save aborts after
storing tags; otherwise normalize markers, write the staging file (a failed
open throws, aborting before the clear), fire the uploads (no session-state
effect) and finish with an implicit clear. -/
def commandSave (o : SaveFS) (args : List String) (s : St) : St × Option Err :=
  if args.length ≠ 5 ∧ args.length ≠ 6 then (s, some Err.badArity)
  else if !s.isWriting then (s, some Err.notWriting)
  else
    let d1 := { s.j with
      worldName := some (filterSqfString (args.getD 0 "")),
      missionName := some (filterSqfString (args.getD 1 "")),
      missionAuthor := some (filterSqfString (args.getD 2 "")) }
    match stodQ (args.getD 3 "") with
    | none => ({ s with j := d1 }, some Err.parseErr)
    | some cd =>
      let d2 := { d1 with captureDelay := some cd }
      match stoiQ (args.getD 4 "") with
      | none => ({ s with j := d2 }, some Err.parseErr)
      | some ef =>
        let d3 := { d2 with endFrame := some ef }
        if args.length > 5 then
          ({ s with j := { d3 with tags := some (filterSqfString (args.getD 5 "")) } },
            some Err.typeErr)
        else
          let d4 := prepareMarkerFrames ef d3
          match saveCurrentReplayToTempFile o with
          | Except.error e => ({ s with j := d4 }, some e)
          | Except.ok _staged => commandClear args { s with j := d4 }

/-- perform_command: dispatch by name through the dll_commands table;
unsupported names are logged and ignored; every handler exception is caught
here, so the partially mutated state is kept and the worker survives. -/
def runCommand (o : SaveFS) (name : String) (args : List String) (s : St) : St × Option Err :=
  if name = ":NEW:VEH:" then commandNewVeh args s
  else if name = ":NEW:UNIT:" then commandNewUnit args s
  else if name = ":CLEAR:" then commandClear args s
  else if name = ":EVENT:" then commandEvent args s
  else if name = ":UPDATE:VEH:" then commandUpdateVeh args s
  else if name = ":UPDATE:UNIT:" then commandUpdateUnit args s
  else if name = ":SAVE:" then commandSave o args s
  else if name = ":LOG:" then commandLog args s
  else if name = ":START:" then commandStart args s
  else if name = ":FIRED:" then commandFired args s
  else if name = ":MARKER:CREATE:" then commandMarkerCreate args s
  else if name = ":MARKER:DELETE:" then commandMarkerDelete args s
  else if name = ":MARKER:MOVE:" then commandMarkerMove args s
  else (s, none)

/-- The state after one envelope is processed (errors are swallowed by the
dispatcher, mutations made before a throw persist). -/
def step (o : SaveFS) (name : String) (args : List String) (s : St) : St :=
  (runCommand o name args s).1

/-! ### Concrete sample data shared by witnesses and counterexamples -/

/-- A configuration (values immaterial; newMode 1 = consolidated). -/
def cfg0 : Config := ⟨"db", "add", "new", "TvT", "pwd", 1, 120, 0⟩

/-- Legacy-mode configuration. -/
def cfgLegacy : Config := ⟨"db", "add", "new", "TvT", "pwd", 0, 120, 0⟩

/-- Oracle: staging write and compression both succeed. -/
def o0 : SaveFS := ⟨true, true, "/tmp/ocap_ab", "res.json"⟩

/-- Oracle: the staging temp file cannot be opened. -/
def oNoFs : SaveFS := ⟨false, true, "/tmp/ocap_ab", "res.json"⟩

/-- Oracle: staging write succeeds, gzip write fails. -/
def oNoGz : SaveFS := ⟨true, false, "/tmp/ocap_ab", "res.json"⟩

/-- The idle state at startup. -/
def sIdle : St := ⟨Doc.empty, false, cfg0⟩

/-- The document right after a start command (no entities/markers yet). -/
def docStarted : Doc :=
  { Doc.empty with
    worldName := some "w", missionName := some "m",
    missionAuthor := some "a", captureDelay := some "1.0" }

/-- Recording state with the freshly started document. -/
def sStarted : St := ⟨docStarted, true, cfg0⟩

/-- A marker as commandMarkerCreate would build it. -/
def mk1 : Marker :=
  ⟨"o_inf", "CBR", 10, -1, 0, "0000FF", 0, [⟨10, "[3915,1971]", some "0", none⟩],
    "[1,1]", some "M1", none, none⟩

/-- Recording state holding one marker. -/
def sMark : St := ⟨{ docStarted with markers := JF.arr [mk1] }, true, cfg0⟩

/-! ### Dispatch equations: runCommand at each concrete command name -/

theorem runCommand_newVeh (o : SaveFS) (args : List String) (s : St) :
    runCommand o ":NEW:VEH:" args s = commandNewVeh args s := rfl

theorem runCommand_newUnit (o : SaveFS) (args : List String) (s : St) :
    runCommand o ":NEW:UNIT:" args s = commandNewUnit args s := rfl

theorem runCommand_clear (o : SaveFS) (args : List String) (s : St) :
    runCommand o ":CLEAR:" args s = commandClear args s := rfl

theorem runCommand_event (o : SaveFS) (args : List String) (s : St) :
    runCommand o ":EVENT:" args s = commandEvent args s := rfl

theorem runCommand_updateVeh (o : SaveFS) (args : List String) (s : St) :
    runCommand o ":UPDATE:VEH:" args s = commandUpdateVeh args s := rfl

theorem runCommand_updateUnit (o : SaveFS) (args : List String) (s : St) :
    runCommand o ":UPDATE:UNIT:" args s = commandUpdateUnit args s := rfl

theorem runCommand_save (o : SaveFS) (args : List String) (s : St) :
    runCommand o ":SAVE:" args s = commandSave o args s := rfl

theorem runCommand_start (o : SaveFS) (args : List String) (s : St) :
    runCommand o ":START:" args s = commandStart args s := rfl

theorem runCommand_fired (o : SaveFS) (args : List String) (s : St) :
    runCommand o ":FIRED:" args s = commandFired args s := rfl

theorem runCommand_markerCreate (o : SaveFS) (args : List String) (s : St) :
    runCommand o ":MARKER:CREATE:" args s = commandMarkerCreate args s := rfl

theorem runCommand_markerDelete (o : SaveFS) (args : List String) (s : St) :
    runCommand o ":MARKER:DELETE:" args s = commandMarkerDelete args s := rfl

theorem runCommand_markerMove (o : SaveFS) (args : List String) (s : St) :
    runCommand o ":MARKER:MOVE:" args s = commandMarkerMove args s := rfl

/-! ### Per-handler facts: idle commands do not touch the state -/

theorem commandClear_idle (args : List String) (s : St) (h : s.isWriting = false) :
    (commandClear args s).1 = s := by
  unfold commandClear; rw [h]; rfl

theorem commandLog_state (args : List String) (s : St) : (commandLog args s).1 = s := rfl

theorem commandNewUnit_idle (args : List String) (s : St) (h : s.isWriting = false) :
    (commandNewUnit args s).1 = s := by
  unfold commandNewUnit; split
  · rfl
  · rw [h]; rfl

theorem commandNewVeh_idle (args : List String) (s : St) (h : s.isWriting = false) :
    (commandNewVeh args s).1 = s := by
  unfold commandNewVeh; split
  · rfl
  · rw [h]; rfl

theorem commandUpdateUnit_idle (args : List String) (s : St) (h : s.isWriting = false) :
    (commandUpdateUnit args s).1 = s := by
  unfold commandUpdateUnit; split
  · rfl
  · rw [h]; rfl

theorem commandUpdateVeh_idle (args : List String) (s : St) (h : s.isWriting = false) :
    (commandUpdateVeh args s).1 = s := by
  unfold commandUpdateVeh; split
  · rfl
  · rw [h]; rfl

theorem commandFired_idle (args : List String) (s : St) (h : s.isWriting = false) :
    (commandFired args s).1 = s := by
  unfold commandFired; split
  · rfl
  · rw [h]; rfl

theorem commandEvent_idle (args : List String) (s : St) (h : s.isWriting = false) :
    (commandEvent args s).1 = s := by
  unfold commandEvent; rw [h]; rfl

theorem commandMarkerCreate_idle (args : List String) (s : St) (h : s.isWriting = false) :
    (commandMarkerCreate args s).1 = s := by
  unfold commandMarkerCreate; split
  · rfl
  · rw [h]; rfl

theorem commandMarkerDelete_idle (args : List String) (s : St) (h : s.isWriting = false) :
    (commandMarkerDelete args s).1 = s := by
  unfold commandMarkerDelete; split
  · rfl
  · rw [h]; rfl

theorem commandMarkerMove_idle (args : List String) (s : St) (h : s.isWriting = false) :
    (commandMarkerMove args s).1 = s := by
  unfold commandMarkerMove; rw [h]; rfl

theorem commandSave_idle (o : SaveFS) (args : List String) (s : St) (h : s.isWriting = false) :
    (commandSave o args s).1 = s := by
  unfold commandSave; split
  · rfl
  · rw [h]; rfl

/-! ### Per-handler facts: no handler ever changes the configuration
(the one config write in the source, commandSave's tags line, throws in its
right-hand side before the assignment). -/

theorem commandClear_cfg (args : List String) (s : St) :
    (commandClear args s).1.cfg = s.cfg := by
  unfold commandClear; split <;> rfl

theorem commandLog_cfg (args : List String) (s : St) :
    (commandLog args s).1.cfg = s.cfg := rfl

theorem commandStart_cfg (args : List String) (s : St) :
    (commandStart args s).1.cfg = s.cfg := by
  simp only [commandStart]
  repeat' split
  all_goals first | rfl | exact commandClear_cfg args s

theorem commandNewUnit_cfg (args : List String) (s : St) :
    (commandNewUnit args s).1.cfg = s.cfg := by
  simp only [commandNewUnit]
  repeat' split
  all_goals rfl

theorem commandNewVeh_cfg (args : List String) (s : St) :
    (commandNewVeh args s).1.cfg = s.cfg := by
  simp only [commandNewVeh]
  repeat' split
  all_goals rfl

theorem commandUpdateUnit_cfg (args : List String) (s : St) :
    (commandUpdateUnit args s).1.cfg = s.cfg := by
  simp only [commandUpdateUnit]
  repeat' split
  all_goals rfl

theorem commandUpdateVeh_cfg (args : List String) (s : St) :
    (commandUpdateVeh args s).1.cfg = s.cfg := by
  simp only [commandUpdateVeh]
  repeat' split
  all_goals rfl

theorem commandFired_cfg (args : List String) (s : St) :
    (commandFired args s).1.cfg = s.cfg := by
  simp only [commandFired]
  repeat' split
  all_goals rfl

theorem commandEvent_cfg (args : List String) (s : St) :
    (commandEvent args s).1.cfg = s.cfg := by
  simp only [commandEvent]
  repeat' split
  all_goals rfl

theorem commandMarkerCreate_cfg (args : List String) (s : St) :
    (commandMarkerCreate args s).1.cfg = s.cfg := by
  simp only [commandMarkerCreate]
  repeat' split
  all_goals rfl

theorem commandMarkerDelete_cfg (args : List String) (s : St) :
    (commandMarkerDelete args s).1.cfg = s.cfg := by
  simp only [commandMarkerDelete]
  repeat' split
  all_goals rfl

theorem commandMarkerMove_cfg (args : List String) (s : St) :
    (commandMarkerMove args s).1.cfg = s.cfg := by
  simp only [commandMarkerMove]
  repeat' split
  all_goals rfl

theorem commandSave_cfg (o : SaveFS) (args : List String) (s : St) :
    (commandSave o args s).1.cfg = s.cfg := by
  simp only [commandSave]
  repeat' split
  all_goals first | rfl | exact commandClear_cfg args _

/-! ### Reverse-find lemmas (the newest-first marker lookup) -/

theorem findRevIdx_forall_none {α} {p : α → Bool} {xs : List α}
    (h : ∀ x ∈ xs, p x = false) : findRevIdx p xs = none := by
  induction xs with
  | nil => rfl
  | cons x xs ih =>
    unfold findRevIdx
    rw [ih (fun y hy => h y (List.mem_cons_of_mem x hy))]
    simp [h x (List.mem_cons_self x xs)]

theorem findRevIdx_none_forall {α} {p : α → Bool} {xs : List α}
    (h : findRevIdx p xs = none) : ∀ x ∈ xs, p x = false := by
  induction xs with
  | nil => intro y hy; simp at hy
  | cons x xs ih =>
    unfold findRevIdx at h
    cases hr : findRevIdx p xs with
    | some i => rw [hr] at h; exact absurd h (by simp)
    | none =>
      rw [hr] at h
      intro y hy
      rcases List.mem_cons.mp hy with rfl | hy2
      · by_contra hpy
        rw [Bool.not_eq_false] at hpy
        rw [hpy] at h
        simp at h
      · exact ih hr y hy2

theorem findRevIdx_some_spec {α} {p : α → Bool} {xs : List α} {i : Nat}
    (h : findRevIdx p xs = some i) :
    ∃ hi : i < xs.length, p (xs.get ⟨i, hi⟩) = true ∧
      ∀ k (hk : k < xs.length), i < k → p (xs.get ⟨k, hk⟩) = false := by
  induction xs generalizing i with
  | nil => simp [findRevIdx] at h
  | cons x xs ih =>
    unfold findRevIdx at h
    cases hr : findRevIdx p xs with
    | some j =>
      rw [hr] at h
      have hij : i = j + 1 := (Option.some.inj h).symm
      subst hij
      obtain ⟨hj, hpj, hlast⟩ := ih hr
      refine ⟨Nat.succ_lt_succ hj, hpj, ?_⟩
      intro k hk hik
      cases k with
      | zero => omega
      | succ k0 => exact hlast k0 (by simpa using hk) (by omega)
    | none =>
      rw [hr] at h
      by_cases hpx : p x = true
      · simp only [hpx, if_true] at h
        have hi0 : i = 0 := (Option.some.inj h).symm
        subst hi0
        refine ⟨by simp, hpx, ?_⟩
        intro k hk hik
        cases k with
        | zero => omega
        | succ k0 =>
          have hk0 : k0 < xs.length := by simpa using hk
          exact findRevIdx_none_forall hr (xs.get ⟨k0, hk0⟩) (List.get_mem xs k0 hk0)
      · simp only [Bool.not_eq_true] at hpx
        simp [hpx] at h

theorem findRevIdx_last_eq_some {α} {p : α → Bool} {xs : List α} {k : Nat}
    (hk : k < xs.length) (hpk : p (xs.get ⟨k, hk⟩) = true)
    (hlast : ∀ k2 (hk2 : k2 < xs.length), k < k2 → p (xs.get ⟨k2, hk2⟩) = false) :
    findRevIdx p xs = some k := by
  induction xs generalizing k with
  | nil => simp at hk
  | cons x xs ih =>
    unfold findRevIdx
    cases k with
    | zero =>
      have hnone : findRevIdx p xs = none := by
        apply findRevIdx_forall_none
        intro y hy
        obtain ⟨j, hj⟩ := List.mem_iff_get.mp hy
        exact hj ▸ hlast (j.1 + 1) (Nat.succ_lt_succ j.2) (Nat.succ_pos _)
      rw [hnone]
      have hx : p x = true := hpk
      simp [hx]
    | succ k0 =>
      have hk0 : k0 < xs.length := Nat.lt_of_succ_lt_succ hk
      rw [ih hk0 hpk (fun k2 hk2 hgt => hlast (k2 + 1) (Nat.succ_lt_succ hk2) (by omega))]

/-! ### Padding lemmas (nlohmann out-of-range operator[] on the entities
array) -/

theorem getD_replicate_none {β} (k m : Nat) :
    (List.replicate k (none : Option β)).getD m none = none := by
  induction k generalizing m with
  | zero => simp [List.getD]
  | succ k ih =>
    cases m with
    | zero => simp [List.replicate]
    | succ m => simp [List.replicate]

theorem padEnts_getD_lt (xs : List (Option Entity)) (n k : Nat) (hk : k < xs.length) :
    (padEnts xs n).getD k none = xs.getD k none := by
  unfold padEnts
  split
  · exact List.getD_append _ _ _ _ hk
  · rfl

theorem padEnts_getD_self (xs : List (Option Entity)) (n : Nat)
    (h : xs.getD n none = none) : (padEnts xs n).getD n none = none := by
  unfold padEnts
  split
  · rename_i hle
    rw [List.getD_append_right _ _ _ _ hle]
    exact getD_replicate_none _ _
  · exact h


/-- Dispatch at a name outside the dll_commands table: logged and ignored. -/
theorem runCommand_unknown (o : SaveFS) (name : String) (args : List String)
    (s : St)
    (h1 : name ≠ ":NEW:VEH:") (h2 : name ≠ ":NEW:UNIT:") (h3 : name ≠ ":CLEAR:")
    (h4 : name ≠ ":EVENT:") (h5 : name ≠ ":UPDATE:VEH:") (h6 : name ≠ ":UPDATE:UNIT:")
    (h7 : name ≠ ":SAVE:") (h8 : name ≠ ":LOG:") (h9 : name ≠ ":START:")
    (h10 : name ≠ ":FIRED:") (h11 : name ≠ ":MARKER:CREATE:")
    (h12 : name ≠ ":MARKER:DELETE:") (h13 : name ≠ ":MARKER:MOVE:") :
    runCommand o name args s = (s, none) := by
  delta runCommand
  rw [if_neg h1, if_neg h2, if_neg h3, if_neg h4, if_neg h5, if_neg h6, if_neg h7,
    if_neg h8, if_neg h9, if_neg h10, if_neg h11, if_neg h12, if_neg h13]

/-! ### Claim C1 -/

/-- C1: for every command other than start, processing the command while the
recording flag is false leaves the session document unchanged (the mutating
handlers are rejected by the arity or writing-state checks before any
document access; log and unsupported names never touch the document). -/
theorem C1_idle_leaves_document_unchanged (o : SaveFS) (name : String)
    (args : List String) (s : St) (hname : name ≠ ":START:")
    (hw : s.isWriting = false) :
    (step o name args s).j = s.j := by
  show (runCommand o name args s).1.j = s.j
  by_cases h1 : name = ":NEW:VEH:"
  · rw [h1, runCommand_newVeh]; exact congrArg St.j (commandNewVeh_idle args s hw)
  by_cases h2 : name = ":NEW:UNIT:"
  · rw [h2, runCommand_newUnit]; exact congrArg St.j (commandNewUnit_idle args s hw)
  by_cases h3 : name = ":CLEAR:"
  · rw [h3, runCommand_clear]; exact congrArg St.j (commandClear_idle args s hw)
  by_cases h4 : name = ":EVENT:"
  · rw [h4, runCommand_event]; exact congrArg St.j (commandEvent_idle args s hw)
  by_cases h5 : name = ":UPDATE:VEH:"
  · rw [h5, runCommand_updateVeh]; exact congrArg St.j (commandUpdateVeh_idle args s hw)
  by_cases h6 : name = ":UPDATE:UNIT:"
  · rw [h6, runCommand_updateUnit]; exact congrArg St.j (commandUpdateUnit_idle args s hw)
  by_cases h7 : name = ":SAVE:"
  · rw [h7, runCommand_save]; exact congrArg St.j (commandSave_idle o args s hw)
  by_cases h8 : name = ":LOG:"
  · rw [h8]; rfl
  by_cases h10 : name = ":FIRED:"
  · rw [h10, runCommand_fired]; exact congrArg St.j (commandFired_idle args s hw)
  by_cases h11 : name = ":MARKER:CREATE:"
  · rw [h11, runCommand_markerCreate]
    exact congrArg St.j (commandMarkerCreate_idle args s hw)
  by_cases h12 : name = ":MARKER:DELETE:"
  · rw [h12, runCommand_markerDelete]
    exact congrArg St.j (commandMarkerDelete_idle args s hw)
  by_cases h13 : name = ":MARKER:MOVE:"
  · rw [h13, runCommand_markerMove]
    exact congrArg St.j (commandMarkerMove_idle args s hw)
  rw [runCommand_unknown o name args s h1 h2 h3 h4 h5 h6 h7 h8 hname h10 h11 h12 h13]

/-- C1 witness: a clear processed in the idle startup state leaves the
document unchanged. -/
theorem C1_witness : (step o0 ":CLEAR:" [] sIdle).j = sIdle.j :=
  C1_idle_leaves_document_unchanged o0 ":CLEAR:" [] sIdle (by decide) rfl

/-! ### Claim C8 -/

/-- C8: no configuration value changes as a result of processing any
command, in any state.  The single config write reachable from a handler,
commandSave's  config.newServerGameType = (json {...}).get<string>()  line,
throws type_error while evaluating its right-hand side (brace-init builds a
one-element array), so the assignment never completes; the trace-logging
work done on start reconfigures loggers, not the config struct.  This is
stronger than the claim, which merely permits a change of the trace toggle
on start. -/
theorem C8_config_unchanged (o : SaveFS) (name : String) (args : List String)
    (s : St) : (step o name args s).cfg = s.cfg := by
  show (runCommand o name args s).1.cfg = s.cfg
  by_cases h1 : name = ":NEW:VEH:"
  · rw [h1, runCommand_newVeh]; exact commandNewVeh_cfg args s
  by_cases h2 : name = ":NEW:UNIT:"
  · rw [h2, runCommand_newUnit]; exact commandNewUnit_cfg args s
  by_cases h3 : name = ":CLEAR:"
  · rw [h3, runCommand_clear]; exact commandClear_cfg args s
  by_cases h4 : name = ":EVENT:"
  · rw [h4, runCommand_event]; exact commandEvent_cfg args s
  by_cases h5 : name = ":UPDATE:VEH:"
  · rw [h5, runCommand_updateVeh]; exact commandUpdateVeh_cfg args s
  by_cases h6 : name = ":UPDATE:UNIT:"
  · rw [h6, runCommand_updateUnit]; exact commandUpdateUnit_cfg args s
  by_cases h7 : name = ":SAVE:"
  · rw [h7, runCommand_save]; exact commandSave_cfg o args s
  by_cases h8 : name = ":LOG:"
  · rw [h8]; rfl
  by_cases h9 : name = ":START:"
  · rw [h9, runCommand_start]; exact commandStart_cfg args s
  by_cases h10 : name = ":FIRED:"
  · rw [h10, runCommand_fired]; exact commandFired_cfg args s
  by_cases h11 : name = ":MARKER:CREATE:"
  · rw [h11, runCommand_markerCreate]; exact commandMarkerCreate_cfg args s
  by_cases h12 : name = ":MARKER:DELETE:"
  · rw [h12, runCommand_markerDelete]; exact commandMarkerDelete_cfg args s
  by_cases h13 : name = ":MARKER:MOVE:"
  · rw [h13, runCommand_markerMove]; exact commandMarkerMove_cfg args s
  rw [runCommand_unknown o name args s h1 h2 h3 h4 h5 h6 h7 h8 h9 h10 h11 h12 h13]

/-! ### Claim C3 -/

/-- C3 counterexample: clear issued while idle FAILS: commandClear opens
with COMMAND_CHECK_WRITING_STATE, so in the idle state it throws the
invalid-state exception instead of succeeding (the claim says clear
succeeds in every state and never fails). -/
theorem C3_counterexample :
    runCommand o0 ":CLEAR:" [] sIdle = (sIdle, some Err.notWriting) := rfl

/-- C3 (amended): clear issued while recording succeeds, wipes the document
and resets the recording flag; issued while idle it fails with the
invalid-state error and changes nothing; at the dispatch boundary (which
swallows the error) issuing clear twice in a row produces the same state as
issuing it once. -/
theorem C3_amended_clear_semantics (o : SaveFS) (args : List String) (s : St) :
    (s.isWriting = true →
      runCommand o ":CLEAR:" args s = (⟨Doc.empty, false, s.cfg⟩, none)) ∧
    (s.isWriting = false →
      runCommand o ":CLEAR:" args s = (s, some Err.notWriting)) ∧
    step o ":CLEAR:" args (step o ":CLEAR:" args s) = step o ":CLEAR:" args s := by
  refine ⟨?_, ?_, ?_⟩
  · intro hw
    rw [runCommand_clear]
    unfold commandClear
    rw [hw]
    rfl
  · intro hw
    rw [runCommand_clear]
    unfold commandClear
    rw [hw]
    rfl
  · show (runCommand o ":CLEAR:" args (runCommand o ":CLEAR:" args s).1).1 =
      (runCommand o ":CLEAR:" args s).1
    rw [runCommand_clear, runCommand_clear]
    cases hw : s.isWriting <;> simp [commandClear, hw]

/-- C3 witness: clear while recording at a concrete state. -/
theorem C3_witness :
    runCommand o0 ":CLEAR:" [] sStarted = (⟨Doc.empty, false, sStarted.cfg⟩, none) :=
  (C3_amended_clear_semantics o0 [] sStarted).1 rfl

/-! ### Claim C9 -/

/-- C9 counterexample: commandClear has NO arity check (it is even invoked
internally with start's and save's argument lists): a clear carrying one
argument while recording is not rejected with an arity error, it succeeds
and wipes the document. -/
theorem C9_counterexample :
    runCommand o0 ":CLEAR:" ["junk"] sMark = (⟨Doc.empty, false, cfg0⟩, none) := rfl

/-! per-handler arity rejection lemmas -/

theorem commandStart_badArity (args : List String) (s : St) (h : args.length ≠ 4) :
    commandStart args s = (s, some Err.badArity) := by
  unfold commandStart; rw [if_pos h]

theorem commandNewUnit_badArity (args : List String) (s : St) (h : args.length ≠ 6) :
    commandNewUnit args s = (s, some Err.badArity) := by
  unfold commandNewUnit; rw [if_pos h]

theorem commandNewVeh_badArity (args : List String) (s : St) (h : args.length ≠ 4) :
    commandNewVeh args s = (s, some Err.badArity) := by
  unfold commandNewVeh; rw [if_pos h]

theorem commandUpdateUnit_badArity (args : List String) (s : St)
    (h7 : args.length ≠ 7) (h8 : args.length ≠ 8) :
    commandUpdateUnit args s = (s, some Err.badArity) := by
  unfold commandUpdateUnit; rw [if_pos ⟨h7, h8⟩]

theorem commandUpdateVeh_badArity (args : List String) (s : St) (h : args.length ≠ 5) :
    commandUpdateVeh args s = (s, some Err.badArity) := by
  unfold commandUpdateVeh; rw [if_pos h]

theorem commandFired_badArity (args : List String) (s : St) (h : args.length ≠ 3) :
    commandFired args s = (s, some Err.badArity) := by
  unfold commandFired; rw [if_pos h]

theorem commandSave_badArity (o : SaveFS) (args : List String) (s : St)
    (h5 : args.length ≠ 5) (h6 : args.length ≠ 6) :
    commandSave o args s = (s, some Err.badArity) := by
  unfold commandSave; rw [if_pos ⟨h5, h6⟩]

theorem commandMarkerCreate_badArity (args : List String) (s : St)
    (h11 : args.length ≠ 11) (h12 : args.length ≠ 12)
    (h13 : args.length ≠ 13) (h14 : args.length ≠ 14) :
    commandMarkerCreate args s = (s, some Err.badArity) := by
  unfold commandMarkerCreate; rw [if_pos ⟨h11, h12, h13, h14⟩]

theorem commandMarkerDelete_badArity (args : List String) (s : St)
    (h : args.length ≠ 2) :
    commandMarkerDelete args s = (s, some Err.badArity) := by
  unfold commandMarkerDelete; rw [if_pos h]

theorem commandEvent_badArity (args : List String) (s : St)
    (hw : s.isWriting = true) (h : args.length < 3) :
    commandEvent args s = (s, some Err.badArity) := by
  unfold commandEvent; rw [hw]
  simp only [Bool.not_true, Bool.false_eq_true, if_false]
  rw [if_pos h]

theorem commandMarkerMove_badArity (args : List String) (s : St)
    (hw : s.isWriting = true) (h3 : args.length ≠ 3) (h4 : args.length ≠ 4)
    (h5 : args.length ≠ 5) :
    commandMarkerMove args s = (s, some Err.badArity) := by
  unfold commandMarkerMove; rw [hw]
  simp only [Bool.not_true, Bool.false_eq_true, if_false]
  rw [if_pos ⟨h3, h4, h5⟩]

/-- C9 (amended): every handler other than clear and log enforces its arity
contract, rejecting any other argument count with an arity error and no
state change; event and marker-move run the writing-state check first, so
while idle their wrong-arity calls are rejected by the state error instead;
clear accepts any argument count; new-vehicle with 3 arguments is rejected
with an arity error and appends no entity. -/
theorem C9_amended_arity_contracts (o : SaveFS) (args : List String) (s : St) :
    (args.length ≠ 4 → runCommand o ":START:" args s = (s, some Err.badArity)) ∧
    (args.length ≠ 6 → runCommand o ":NEW:UNIT:" args s = (s, some Err.badArity)) ∧
    (args.length ≠ 4 → runCommand o ":NEW:VEH:" args s = (s, some Err.badArity)) ∧
    (args.length ≠ 7 → args.length ≠ 8 →
      runCommand o ":UPDATE:UNIT:" args s = (s, some Err.badArity)) ∧
    (args.length ≠ 5 → runCommand o ":UPDATE:VEH:" args s = (s, some Err.badArity)) ∧
    (args.length ≠ 3 → runCommand o ":FIRED:" args s = (s, some Err.badArity)) ∧
    (args.length ≠ 5 → args.length ≠ 6 →
      runCommand o ":SAVE:" args s = (s, some Err.badArity)) ∧
    (args.length ≠ 11 → args.length ≠ 12 → args.length ≠ 13 → args.length ≠ 14 →
      runCommand o ":MARKER:CREATE:" args s = (s, some Err.badArity)) ∧
    (args.length ≠ 2 → runCommand o ":MARKER:DELETE:" args s = (s, some Err.badArity)) ∧
    (s.isWriting = true → args.length < 3 →
      runCommand o ":EVENT:" args s = (s, some Err.badArity)) ∧
    (s.isWriting = true → args.length ≠ 3 → args.length ≠ 4 → args.length ≠ 5 →
      runCommand o ":MARKER:MOVE:" args s = (s, some Err.badArity)) ∧
    runCommand o ":NEW:VEH:" ["a", "b", "c"] s = (s, some Err.badArity) := by
  refine ⟨?_, ?_, ?_, ?_, ?_, ?_, ?_, ?_, ?_, ?_, ?_, ?_⟩
  · intro h; rw [runCommand_start]; exact commandStart_badArity args s h
  · intro h; rw [runCommand_newUnit]; exact commandNewUnit_badArity args s h
  · intro h; rw [runCommand_newVeh]; exact commandNewVeh_badArity args s h
  · intro h7 h8; rw [runCommand_updateUnit]; exact commandUpdateUnit_badArity args s h7 h8
  · intro h; rw [runCommand_updateVeh]; exact commandUpdateVeh_badArity args s h
  · intro h; rw [runCommand_fired]; exact commandFired_badArity args s h
  · intro h5 h6; rw [runCommand_save]; exact commandSave_badArity o args s h5 h6
  · intro h11 h12 h13 h14; rw [runCommand_markerCreate]
    exact commandMarkerCreate_badArity args s h11 h12 h13 h14
  · intro h; rw [runCommand_markerDelete]; exact commandMarkerDelete_badArity args s h
  · intro hw h; rw [runCommand_event]; exact commandEvent_badArity args s hw h
  · intro hw h3 h4 h5; rw [runCommand_markerMove]
    exact commandMarkerMove_badArity args s hw h3 h4 h5
  · rw [runCommand_newVeh]
    exact commandNewVeh_badArity _ s (by decide)

/-- C9 witness: a start with 3 arguments is rejected with the arity error. -/
theorem C9_witness :
    runCommand o0 ":START:" ["a", "b", "c"] sStarted = (sStarted, some Err.badArity) :=
  (C9_amended_arity_contracts o0 ["a", "b", "c"] sStarted).1 (by decide)

/-! ### Claim C2 -/

/-- C2 counterexample: a save processed while recording when the staging
temp file cannot be opened: saveCurrentReplayToTempFile throws, the
exception propagates past the final commandClear call, and the dispatcher
catches it — leaving the recording flag true and the document non-empty
(the claim says every save clears regardless of staging-write failure). -/
theorem C2_counterexample :
    (runCommand oNoFs ":SAVE:" ["\"w\"", "\"m\"", "\"a\"", "1.0", "5"] sMark).1.isWriting
        = true ∧
    (runCommand oNoFs ":SAVE:" ["\"w\"", "\"m\"", "\"a\"", "1.0", "5"] sMark).1.j
        ≠ Doc.empty ∧
    (runCommand oNoFs ":SAVE:" ["\"w\"", "\"m\"", "\"a\"", "1.0", "5"] sMark).2
        = some Err.ioErr :=
  ⟨rfl, by decide, rfl⟩

/-- C2 (amended): a save processed while recording whose staging-file write
succeeds and which carries no tags argument always reaches the implicit
clear: recording false and an empty document afterward, regardless of the
compression outcome (and of the uploads, which never touch session state).
A failed staging-file open — or the always-throwing tags line of a
6-argument save — aborts before the clear. -/
theorem C2_amended_save_clears (o : SaveFS) (args : List String) (s : St)
    (hw : s.isWriting = true) (hlen : args.length = 5) (hfs : o.fsOk = true)
    (h3 : (stodQ (args.getD 3 "")).isSome = true)
    (h4 : (stoiQ (args.getD 4 "")).isSome = true) :
    runCommand o ":SAVE:" args s = (⟨Doc.empty, false, s.cfg⟩, none) := by
  obtain ⟨cd, hcd⟩ := Option.isSome_iff_exists.mp h3
  obtain ⟨ef, hef⟩ := Option.isSome_iff_exists.mp h4
  rw [runCommand_save]
  unfold commandSave saveCurrentReplayToTempFile
  rw [hlen, hw, hfs, hcd, hef]
  cases hgz : o.gzOk <;> simp [commandClear, hw]

/-- C2 witness: a successful 5-argument save at a concrete recording
state. -/
theorem C2_witness :
    runCommand o0 ":SAVE:" ["\"w\"", "\"m\"", "\"a\"", "1.0", "5"] sMark =
      (⟨Doc.empty, false, sMark.cfg⟩, none) :=
  C2_amended_save_clears o0 ["\"w\"", "\"m\"", "\"a\"", "1.0", "5"] sMark
    rfl rfl rfl rfl rfl

/-! ### Claim C4 -/

/-- C4 counterexample: an update-unit whose id (2) does not resolve indeed
logs, raises no exception (outcome none) — but the document does NOT stay
unchanged: the non-const operator[] chain j["entities"][2] materializes the
entities member and pads it with nulls up to index 2. -/
theorem C4_counterexample :
    (runCommand o0 ":UPDATE:UNIT:"
        ["2", "[1,2]", "3", "4", "5", "\"nm\"", "6"] sStarted).2 = none ∧
    (runCommand o0 ":UPDATE:UNIT:"
        ["2", "[1,2]", "3", "4", "5", "\"nm\"", "6"] sStarted).1.j.entities
      = JF.arr [none, none, none] ∧
    sStarted.j.entities = JF.absent :=
  ⟨rfl, rfl, rfl⟩

/-- C4 (amended): for update-unit, update-vehicle and fired commands whose
(non-negative) entity id does not resolve to an existing entity, the
handler logs, raises no exception, and touches no existing entity or other
document field — but the entities array is extended with null placeholders
up to the requested id (an empty array is materialized first when the
member was absent); existing entries keep their values. -/
theorem C4_amended_missing_id (o : SaveFS) (s : St) (hw : s.isWriting = true)
    (n : Nat) (a0 : String) (ha0 : stoiQ a0 = some (n : Int))
    (hmiss : (entsOf s.j.entities).getD n none = none)
    (r6 r4 r2 : List String) (h6 : r6.length = 6) (h4 : r4.length = 4)
    (h2 : r2.length = 2) :
    runCommand o ":UPDATE:UNIT:" (a0 :: r6) s =
      ({ s with j := { s.j with
          entities := JF.arr (padEnts (entsOf s.j.entities) n) } }, none) ∧
    runCommand o ":UPDATE:VEH:" (a0 :: r4) s =
      ({ s with j := { s.j with
          entities := JF.arr (padEnts (entsOf s.j.entities) n) } }, none) ∧
    runCommand o ":FIRED:" (a0 :: r2) s =
      ({ s with j := { s.j with
          entities := JF.arr (padEnts (entsOf s.j.entities) n) } }, none) ∧
    (∀ k, k < (entsOf s.j.entities).length →
      (padEnts (entsOf s.j.entities) n).getD k none
        = (entsOf s.j.entities).getD k none) := by
  have hnneg : ¬((n : Int) < 0) := by omega
  have hton : ((n : Int)).toNat = n := rfl
  have hpad := padEnts_getD_self (entsOf s.j.entities) n hmiss
  refine ⟨?_, ?_, ?_, fun k hk => padEnts_getD_lt _ n k hk⟩
  · rw [runCommand_updateUnit]
    unfold commandUpdateUnit
    simp only [List.length_cons, h6, List.getD_cons_zero, ha0, hw]
    rw [if_neg (by omega)]
    simp only [Bool.not_true, Bool.false_eq_true, if_false]
    rw [if_neg hnneg, hton, hpad]
  · rw [runCommand_updateVeh]
    unfold commandUpdateVeh
    simp only [List.length_cons, h4, List.getD_cons_zero, ha0, hw]
    rw [if_neg (by omega)]
    simp only [Bool.not_true, Bool.false_eq_true, if_false]
    rw [if_neg hnneg, hton, hpad]
  · rw [runCommand_fired]
    unfold commandFired
    simp only [List.length_cons, h2, List.getD_cons_zero, ha0, hw]
    rw [if_neg (by omega)]
    simp only [Bool.not_true, Bool.false_eq_true, if_false]
    rw [if_neg hnneg, hton, hpad]

/-- C4 witness: a fired command on id 1 with no entities registered. -/
theorem C4_witness :
    runCommand o0 ":FIRED:" ["1", "2", "[3,4]"] sStarted =
      ({ sStarted with j := { sStarted.j with
          entities := JF.arr (padEnts (entsOf sStarted.j.entities) 1) } }, none) :=
  (C4_amended_missing_id o0 sStarted rfl 1 "1" rfl rfl
    ["x", "x", "x", "x", "x", "x"] ["x", "x", "x", "x"] ["2", "[3,4]"]
    rfl rfl rfl).2.2.1

/-! ### Claim C5 -/

/-- C5: for every marker-move command (any of its arities) that resolves to
an existing marker, with history h: if h already holds an entry for the
supplied frame, the most recent such entry is replaced in place and the
history length is unchanged; otherwise the new record is appended and the
length grows by one.  The record written carries the supplied frame and
position. -/
theorem C5_marker_move_last_write_wins (o : SaveFS) (s : St) (args : List String)
    (hw : s.isWriting = true)
    (ms : List Marker) (hm : s.j.markers = JF.arr ms)
    (hlen : args.length = 3 ∨ args.length = 4 ∨ args.length = 5)
    (i : Nat)
    (hfind : findRevIdx (fun m => m.markerId = some (filterSqfString (args.getD 0 ""))) ms
      = some i)
    (f : Int) (hf : stoiQ (args.getD 1 "") = some f)
    (hdir : args.length < 4 ∨ (stodQ (args.getD 3 "")).isSome = true)
    (halpha : args.length < 5 ∨ (stoiQ (args.getD 4 "")).isSome = true)
    (h : List PosRec) (hh : (ms.getD i mDefault).history = h) :
    ∃ cr : PosRec, cr.frame = f ∧ cr.pos = args.getD 2 "" ∧
      ∃ h2 : List PosRec,
        runCommand o ":MARKER:MOVE:" args s =
          ({ s with j := { s.j with
              markers := JF.arr (ms.set i { ms.getD i mDefault with history := h2 }) } },
            none) ∧
        ((∀ e ∈ h, e.frame ≠ f) → h2 = h ++ [cr] ∧ h2.length = h.length + 1) ∧
        (∀ k (hk : k < h.length), (h.get ⟨k, hk⟩).frame = f →
          (∀ k2 (hk2 : k2 < h.length), k < k2 → (h.get ⟨k2, hk2⟩).frame ≠ f) →
          h2 = h.set k cr ∧ h2.length = h.length) := by
  have hdir2 : ∃ dr, (if args.length < 4 then some none
      else (stodQ (args.getD 3 "")).map some) = some dr := by
    by_cases h4 : args.length < 4
    · exact ⟨none, by rw [if_pos h4]⟩
    · rcases hdir with hx | hs
      · exact absurd hx h4
      · obtain ⟨d, hd⟩ := Option.isSome_iff_exists.mp hs
        exact ⟨some d, by rw [if_neg h4, hd]; rfl⟩
  have halpha2 : ∃ al, (if args.length > 4 then (stoiQ (args.getD 4 "")).map some
      else some none) = some al := by
    by_cases h5 : args.length > 4
    · rcases halpha with hx | hs
      · omega
      · obtain ⟨a, ha⟩ := Option.isSome_iff_exists.mp hs
        exact ⟨some a, by rw [if_pos h5, ha]; rfl⟩
    · exact ⟨none, by rw [if_neg h5]⟩
  obtain ⟨dr, hdr⟩ := hdir2
  obtain ⟨al, hal⟩ := halpha2
  refine ⟨⟨f, args.getD 2 "", dr, al⟩, rfl, rfl,
    (match findRevIdx (fun e => e.frame = f) h with
      | none => h ++ [⟨f, args.getD 2 "", dr, al⟩]
      | some k => h.set k ⟨f, args.getD 2 "", dr, al⟩), ?_, ?_, ?_⟩
  · rw [runCommand_markerMove]
    unfold commandMarkerMove
    rw [hw]
    simp only [Bool.not_true, Bool.false_eq_true, if_false]
    rw [if_neg (by rcases hlen with hx | hx | hx <;> simp [hx])]
    simp only [hdr]
    rw [hm]
    simp only [markersMaterialized, markersList]
    simp only [hfind, hf, hal, hh]
  · intro hnone
    have : findRevIdx (fun e => e.frame = f) h = none :=
      findRevIdx_forall_none (fun e he => decide_eq_false (hnone e he))
    rw [this]
    exact ⟨rfl, by simp⟩
  · intro k hk hpk hlast
    have : findRevIdx (fun e => e.frame = f) h = some k :=
      findRevIdx_last_eq_some hk (decide_eq_true hpk)
        (fun k2 hk2 hgt => decide_eq_false (hlast k2 hk2 hgt))
    rw [this]
    exact ⟨rfl, List.length_set h k _⟩

/-- C5 witness: moving marker M1 at its creation frame 10 replaces the one
existing history entry in place; the hypotheses are discharged at the
concrete recording state holding one marker. -/
theorem C5_witness :
    ∃ cr : PosRec, cr.frame = 10 ∧ cr.pos = "[5,5]" ∧
      ∃ h2 : List PosRec,
        runCommand o0 ":MARKER:MOVE:" ["\"M1\"", "10", "[5,5]"] sMark =
          ({ sMark with j := { sMark.j with
              markers := JF.arr ([mk1].set 0 { [mk1].getD 0 mDefault with history := h2 }) } },
            none) ∧
        ((∀ e ∈ mk1.history, e.frame ≠ 10) →
          h2 = mk1.history ++ [cr] ∧ h2.length = mk1.history.length + 1) ∧
        (∀ k (hk : k < mk1.history.length),
          (mk1.history.get ⟨k, hk⟩).frame = 10 →
          (∀ k2 (hk2 : k2 < mk1.history.length), k < k2 →
            (mk1.history.get ⟨k2, hk2⟩).frame ≠ 10) →
          h2 = mk1.history.set k cr ∧ h2.length = mk1.history.length) :=
  C5_marker_move_last_write_wins o0 sMark ["\"M1\"", "10", "[5,5]"] rfl
    [mk1] rfl (Or.inl rfl) 0 (by decide) 10 rfl (Or.inl (by decide))
    (Or.inl (by decide)) mk1.history rfl

/-- List.set leaves every other index unchanged (getD form). -/
theorem getD_set_ne {α} (xs : List α) (i k : Nat) (a d : α) (hik : k ≠ i) :
    (xs.set i a).getD k d = xs.getD k d := by
  induction xs generalizing i k with
  | nil => simp
  | cons x xs ih =>
    cases i with
    | zero =>
      cases k with
      | zero => omega
      | succ k => simp [List.set]
    | succ i =>
      cases k with
      | zero => simp [List.set]
      | succ k => simpa [List.set] using ih i k (by omega)

/-! ### Claim C6 -/

/-- C6 counterexample: a marker-move whose name matches nothing does fail
with the no-such-marker error, but the document does NOT stay unchanged
when it had no Markers member yet: the bare j["Markers"] access performed
by the lookup materializes a null Markers member. -/
theorem C6_counterexample :
    (runCommand o0 ":MARKER:MOVE:" ["\"x\"", "0", "[1,2]"] sStarted).2
        = some Err.noSuchMarker ∧
    (runCommand o0 ":MARKER:MOVE:" ["\"x\"", "0", "[1,2]"] sStarted).1.j.markers
        = JF.jnull ∧
    sStarted.j.markers = JF.absent :=
  ⟨rfl, rfl, rfl⟩

/-- C6 (amended): on a document whose Markers member is already an array,
marker-move and marker-delete resolve the name newest-first: with no match
they fail with the no-such-marker error and the whole state is unchanged;
with a match at index i, i carries the name, every YOUNGER (larger-index)
marker does not, and only the marker at i is replaced — every other index
keeps its value.  (When the Markers member is absent the failing lookup
additionally materializes a null Markers member, see the counterexample.) -/
theorem C6_amended_newest_first_lookup (o : SaveFS) (s : St) (ms : List Marker)
    (hw : s.isWriting = true) (hm : s.j.markers = JF.arr ms)
    (nm frS posS : String) :
    (findRevIdx (fun m => m.markerId = some (filterSqfString nm)) ms = none →
      runCommand o ":MARKER:MOVE:" [nm, frS, posS] s = (s, some Err.noSuchMarker) ∧
      runCommand o ":MARKER:DELETE:" [nm, frS] s = (s, some Err.noSuchMarker)) ∧
    (∀ i, findRevIdx (fun m => m.markerId = some (filterSqfString nm)) ms = some i →
      ((ms.getD i mDefault).markerId = some (filterSqfString nm) ∧
        (∀ k (hk : k < ms.length), i < k →
          (ms.get ⟨k, hk⟩).markerId ≠ some (filterSqfString nm))) ∧
      (∀ f, stoiQ frS = some f →
        (∃ m2 : Marker,
          runCommand o ":MARKER:MOVE:" [nm, frS, posS] s =
            ({ s with j := { s.j with markers := JF.arr (ms.set i m2) } }, none)) ∧
        runCommand o ":MARKER:DELETE:" [nm, frS] s =
          ({ s with j := { s.j with
              markers := JF.arr (ms.set i { ms.getD i mDefault with endFrame := f }) } },
            none) ∧
        (∀ (m2 : Marker) k, k ≠ i → (ms.set i m2).getD k mDefault = ms.getD k mDefault))) := by
  constructor
  · intro hnone
    constructor
    · rw [runCommand_markerMove]
      unfold commandMarkerMove
      rw [hw, hm]
      simp only [markersMaterialized, markersList, Bool.not_true, Bool.false_eq_true,
        if_false, List.getD_cons_zero, List.getD_cons_succ, List.getD_nil,
        List.length_cons, List.length_nil]
      norm_num
      simp only [hnone]
      rw [← hm, ← hw]
    · rw [runCommand_markerDelete]
      unfold commandMarkerDelete
      rw [hw, hm]
      simp only [markersMaterialized, markersList, Bool.not_true, Bool.false_eq_true,
        if_false, List.getD_cons_zero, List.getD_cons_succ, List.getD_nil,
        List.length_cons, List.length_nil]
      norm_num
      simp only [hnone]
      rw [← hm, ← hw]
  · intro i hfind
    obtain ⟨hi, hpi, hlast⟩ := findRevIdx_some_spec hfind
    refine ⟨⟨?_, ?_⟩, ?_⟩
    · rw [List.getD_eq_getElem ms mDefault hi]
      exact of_decide_eq_true hpi
    · intro k hk hik
      exact of_decide_eq_false (hlast k hk hik)
    · intro f hf
      refine ⟨⟨{ ms.getD i mDefault with history :=
          (match findRevIdx (fun e => e.frame = f) (ms.getD i mDefault).history with
            | none => (ms.getD i mDefault).history ++ [⟨f, posS, none, none⟩]
            | some k => (ms.getD i mDefault).history.set k ⟨f, posS, none, none⟩) }, ?_⟩,
        ?_, ?_⟩
      · rw [runCommand_markerMove]
        unfold commandMarkerMove
        rw [hw, hm]
        simp only [markersMaterialized, markersList, Bool.not_true, Bool.false_eq_true,
          if_false, List.getD_cons_zero, List.getD_cons_succ, List.getD_nil,
          List.length_cons, List.length_nil]
        norm_num
        simp only [hfind, hf]
      · rw [runCommand_markerDelete]
        unfold commandMarkerDelete
        rw [hw, hm]
        simp only [markersMaterialized, markersList, Bool.not_true, Bool.false_eq_true,
          if_false, List.getD_cons_zero, List.getD_cons_succ, List.getD_nil,
          List.length_cons, List.length_nil]
        norm_num
        simp only [hfind, hf]
      · intro m2 k hk
        exact getD_set_ne ms i k m2 mDefault hk

/-- C6 witness: move and delete on the one concrete marker M1, resolved at
index 0. -/
theorem C6_witness :
    (∃ m2 : Marker,
      runCommand o0 ":MARKER:MOVE:" ["\"M1\"", "10", "[5,5]"] sMark =
        ({ sMark with j := { sMark.j with markers := JF.arr ([mk1].set 0 m2) } },
          none)) ∧
    runCommand o0 ":MARKER:DELETE:" ["\"M1\"", "10"] sMark =
      ({ sMark with j := { sMark.j with
          markers := JF.arr ([mk1].set 0 { [mk1].getD 0 mDefault with endFrame := 10 }) } },
        none) ∧
    (∀ (m2 : Marker) k, k ≠ 0 →
      ([mk1].set 0 m2).getD k mDefault = [mk1].getD k mDefault) :=
  ((C6_amended_newest_first_lookup o0 sMark [mk1] rfl rfl "\"M1\"" "10" "[5,5]").2 0
    (by decide)).2 10 rfl

/-! ### Claim C7 -/

/-- C7: on a non-empty markers array (the guard returns unchanged on a
null, non-array or empty member), the save-time normalization pass maps
every marker as follows: a closing frame of -1 (open) becomes the session
end frame, any other closing frame is kept, and the internal marker-id
field (tuple index 9) is removed; hence afterwards no marker carries the
lookup id, and whenever the end frame itself is not -1 no marker is left
with an open closing frame.  commandSave invokes this pass with the
just-stored endFrame before serializing and staging the document. -/
theorem C7_prepare_marker_frames (e : Int) (d : Doc) (ms : List Marker)
    (hm : d.markers = JF.arr ms) (hne : ms ≠ []) :
    prepareMarkerFrames e d =
      { d with markers := JF.arr (ms.map (fun m =>
          { m with endFrame := if m.endFrame = -1 then e else m.endFrame,
                   markerId := none })) } ∧
    (∀ m2 ∈ markersList (prepareMarkerFrames e d).markers, m2.markerId = none) ∧
    (e ≠ -1 →
      ∀ m2 ∈ markersList (prepareMarkerFrames e d).markers, m2.endFrame ≠ -1) := by
  have hlen : ¬(ms.length < 1) := by
    have := List.length_pos.mpr hne
    omega
  have hmain : prepareMarkerFrames e d =
      { d with markers := JF.arr (ms.map (fun m =>
          { m with endFrame := if m.endFrame = -1 then e else m.endFrame,
                   markerId := none })) } := by
    unfold prepareMarkerFrames
    rw [hm]
    simp only [if_neg hlen]
  refine ⟨hmain, ?_, ?_⟩
  · rw [hmain]
    intro m2 hm2
    simp only [markersList] at hm2
    obtain ⟨m, _, rfl⟩ := List.mem_map.mp hm2
    rfl
  · intro he m2 hm2
    rw [hmain] at hm2
    simp only [markersList] at hm2
    obtain ⟨m, _, rfl⟩ := List.mem_map.mp hm2
    by_cases hopen : m.endFrame = -1
    · simpa [hopen] using he
    · simp [hopen]

/-- C7 witness: normalizing the one concrete open marker at end frame 99
closes it with 99 and strips its id. -/
theorem C7_witness :
    prepareMarkerFrames 99 sMark.j =
      { sMark.j with markers := JF.arr ([mk1].map (fun m =>
          { m with endFrame := if m.endFrame = -1 then 99 else m.endFrame,
                   markerId := none })) } ∧
    (∀ m2 ∈ markersList (prepareMarkerFrames 99 sMark.j).markers, m2.markerId = none) ∧
    ((99 : Int) ≠ -1 →
      ∀ m2 ∈ markersList (prepareMarkerFrames 99 sMark.j).markers, m2.endFrame ≠ -1) :=
  C7_prepare_marker_frames 99 sMark.j [mk1] rfl (by decide)

/-! ### Claim C10 -/

/-- C10: in legacy upload mode (newMode 0) the file-upload call is always
handed tfile.first, the uncompressed staging path — even when compression
succeeded, in which case that very file was already deleted; only the
consolidated mode (newMode nonzero) falls back between the staged pair,
posting the compressed archive when compression succeeded and the
uncompressed file otherwise. -/
theorem C10_upload_path_choice (o : SaveFS) (cfg : Config)
    (world mission dur fname : String) (staged : StagedFiles)
    (hok : saveCurrentReplayToTempFile o = Except.ok staged) :
    (cfg.newMode = 0 →
      curlActions cfg world mission dur fname staged =
        [UploadCall.dbInsert cfg.dbInsertUrl world mission dur fname,
          UploadCall.uploadFile cfg.addFileUrl staged.first fname] ∧
      (o.gzOk = true → staged.uncompressedDeleted = true)) ∧
    (cfg.newMode ≠ 0 →
      curlActions cfg world mission dur fname staged =
        [UploadCall.uploadNew cfg.newUrl world mission dur fname
          (if o.gzOk then staged.second else staged.first)
          cfg.newServerGameType cfg.newUrlRequestSecret]) := by
  unfold saveCurrentReplayToTempFile at hok
  constructor
  · intro hmode
    constructor
    · unfold curlActions
      rw [if_neg (by simp [hmode])]
    · intro hgz
      rw [hgz] at hok
      cases hfs : o.fsOk with
      | false => rw [hfs] at hok; simp at hok
      | true =>
        rw [hfs] at hok
        simp only [Bool.not_true, Bool.false_eq_true, if_false, if_true] at hok
        obtain rfl := (Except.ok.inj hok).symm
        rfl
  · intro hmode
    unfold curlActions curlUploadNewFile
    rw [if_pos hmode]
    cases hfs : o.fsOk with
    | false => rw [hfs] at hok; simp at hok
    | true =>
      rw [hfs] at hok
      simp only [Bool.not_true, Bool.false_eq_true, if_false] at hok
      cases hgz : o.gzOk with
      | true =>
        rw [hgz] at hok
        simp only [if_true] at hok
        obtain rfl := (Except.ok.inj hok).symm
        simp only [if_true]
        have hgz3 : (".gz" : String).length = 3 := rfl
        have h0 : ("" : String).length = 0 := rfl
        have hne2 : ¬(o.tempName ++ ".gz" = "") := by
          intro hemp
          have h3 := congrArg String.length hemp
          rw [String.length_append, hgz3, h0] at h3
          omega
        rw [if_pos hne2]
      | false =>
        rw [hgz] at hok
        simp only [Bool.false_eq_true, if_false] at hok
        obtain rfl := (Except.ok.inj hok).symm
        simp

/-- C10 witness: with both staging and compression succeeding, legacy mode
still uploads the (deleted) uncompressed path while consolidated mode would
post the archive. -/
theorem C10_witness :
    ((cfgLegacy.newMode = 0 →
      curlActions cfgLegacy "w" "m" "d" "f"
          ⟨"/tmp/ocap_ab", "/tmp/ocap_ab.gz", true⟩ =
        [UploadCall.dbInsert cfgLegacy.dbInsertUrl "w" "m" "d" "f",
          UploadCall.uploadFile cfgLegacy.addFileUrl "/tmp/ocap_ab" "f"] ∧
      (o0.gzOk = true →
        (⟨"/tmp/ocap_ab", "/tmp/ocap_ab.gz", true⟩ : StagedFiles).uncompressedDeleted
          = true)) ∧
    (cfgLegacy.newMode ≠ 0 →
      curlActions cfgLegacy "w" "m" "d" "f"
          ⟨"/tmp/ocap_ab", "/tmp/ocap_ab.gz", true⟩ =
        [UploadCall.uploadNew cfgLegacy.newUrl "w" "m" "d" "f"
          (if o0.gzOk then "/tmp/ocap_ab.gz" else "/tmp/ocap_ab")
          cfgLegacy.newServerGameType cfgLegacy.newUrlRequestSecret])) :=
  C10_upload_path_choice o0 cfgLegacy "w" "m" "d" "f"
    ⟨"/tmp/ocap_ab", "/tmp/ocap_ab.gz", true⟩ rfl
